import Mathlib

/-!
Shallow embedding of the Server_BLE firmware sources
(SensorManager.cpp, CalibrationManager.cpp, BLEManager.cpp) and proofs of
the behavioral properties stated about them.

Conventions of the embedding:
* Arduino `millis()` timestamps are natural numbers; the `unsigned long`
  subtraction `millis() - t0` is embedded as `usub32` (32-bit wraparound).
* The UART byte stream is a function from time to the number of available
  bytes; the busy-wait poll loop of `readCO2` is embedded as one availability
  check per millisecond, which is exact for byte counts that change at
  millisecond granularity.
* DHT float readings are `Option ℚ`; `none` models a NaN reading, which is
  the only float property the code inspects (`isnan`).
* Hardware pins are booleans: `true` = HIGH, `false` = LOW.
-/

/-- Unsigned 32-bit subtraction, as computed by the Arduino expression
`millis() - start` on `unsigned long` values (4294967296 = 2 ^ 32). -/
def usub32 (a b : Nat) : Nat :=
  (a + (4294967296 - b % 4294967296)) % 4294967296

/-- Checksum of an MH-Z19C 9-byte frame, from the static function
`calculateChecksum` in SensorManager.cpp: byte-sum the bytes at indices
1..7, subtract the sum from 0xFF, then add 1, in single-byte arithmetic. -/
def calculateChecksum (packet : List Nat) : Nat :=
  let s := ((packet.drop 1).take 7).foldl (fun a b => (a + b) % 256) 0
  ((255 - s) + 1) % 256

/-- Readiness states of the CO2 sensor, used by SensorManager.cpp
(the values PREHEATING, READY, CALIBRATING appear in the .cpp; the enum
declaration itself is not among the sources). -/
inductive SensorState
  | PREHEATING
  | READY
  | CALIBRATING
  deriving DecidableEq, Repr

/-- The state variables of class SensorManager (SensorManager.h /
SensorManager.cpp); `bmp_sampling_configured` records whether
`bmp.setSampling(...)` has been applied to the driver. -/
structure SensorManager where
  bmp_initialized : Bool
  last_bmp_reconnect_attempt : Nat
  preheat_start_time : Nat
  state : SensorState
  fan_state : Bool
  bmp_sampling_configured : Bool
  deriving DecidableEq, Repr

/-- The member initializations performed by the constructor
SensorManager::SensorManager(). -/
def SensorManager.ctorState : SensorManager where
  bmp_initialized := false
  last_bmp_reconnect_attempt := 0
  preheat_start_time := 0
  state := SensorState.PREHEATING
  fan_state := false
  bmp_sampling_configured := false

/-- SensorManager::init() at time `now`, where `bmpOk` is the outcome of
`bmp.begin(0x76)`: starts the preheat timer, turns the fan off, and marks
(and configures) the BMP280 iff it was found. The readiness state is left
as the constructor set it (PREHEATING). -/
def SensorManager.init (st : SensorManager) (now : Nat) (bmpOk : Bool) :
    SensorManager :=
  { st with
    preheat_start_time := now
    fan_state := false
    bmp_initialized := bmpOk
    bmp_sampling_configured := bmpOk }

/-- The data structure SensorData from SensorManager.h. -/
structure SensorData where
  temperature : ℚ
  humidity : ℚ
  pressure : ℚ
  co2 : Int
  deriving DecidableEq, Repr

/-- The environment of one SensorManager read call: the current time, the
number of UART bytes available at each time, the 9 response bytes (indexed
0..8), the DHT readings (`none` = NaN), the raw BMP pressure in Pa, and
whether `bmp.begin(0x76)` would succeed if attempted. -/
structure SensorEnv where
  now : Nat
  avail : Nat → Nat
  response : Nat → Nat
  dhtHumidity : Option ℚ
  dhtTemperature : Option ℚ
  bmpPressure : ℚ
  bmpBeginOk : Bool

/-- The poll loop `while (Serial2.available() < 9) if (millis() - startTime
> 150) return -1;` of SensorManager::readCO2, one availability check per
millisecond. The loop makes at most 152 checks (the timeout branch fires at
elapsed 151 at the latest), so fuel 152 renders it total without changing
its behavior; it returns the time at which 9 bytes were seen, or `none` on
timeout. -/
def pollGo (avail : Nat → Nat) (startTime : Nat) : Nat → Nat → Option Nat
  | _, 0 => none
  | t, k + 1 =>
    if 9 ≤ avail t then some t
    else if 150 < usub32 t startTime then none
    else pollGo avail startTime (t + 1) k

/-- The poll loop of SensorManager::readCO2 started at `startTime`. -/
def pollSerial (avail : Nat → Nat) (startTime : Nat) : Option Nat :=
  pollGo avail startTime startTime 152

/-- SensorManager::readCO2(): completes the preheat state machine (strict
`millis() - preheat_start_time > 60000`, with `setFanState(true)` on the
transition), sends the read frame, polls with the 150 ms timeout, and
parses the response; `-1` on timeout or a bad header. -/
def SensorManager.readCO2 (env : SensorEnv) (st : SensorManager) :
    Int × SensorManager :=
  let st1 :=
    if st.state = SensorState.PREHEATING ∧
        60000 < usub32 env.now st.preheat_start_time then
      { st with fan_state := true, state := SensorState.READY }
    else st
  match pollSerial env.avail env.now with
  | none => (-1, st1)
  | some _ =>
    if env.response 0 = 0xFF ∧ env.response 1 = 0x86 then
      (Int.ofNat (Nat.lor (Nat.shiftLeft (env.response 2) 8) (env.response 3)),
        st1)
    else (-1, st1)

/-- The DHT22 branch of SensorManager::readAllSensors(): the pair
(humidity, temperature); if either reading is NaN, both are forced to the
-1.0 sentinel. -/
def SensorManager.dhtStep (env : SensorEnv) : ℚ × ℚ :=
  match env.dhtHumidity, env.dhtTemperature with
  | some h, some t => (h, t)
  | _, _ => (-1, -1)

/-- The BMP280 branch of SensorManager::readAllSensors(): if the sensor is
marked initialized, convert Pa to hPa; otherwise emit the -1 sentinel and,
when `millis() - last_bmp_reconnect_attempt > 5000` (strict), refresh the
attempt timestamp and retry `bmp.begin(0x76)`, re-applying the sampling
configuration on success. -/
def SensorManager.bmpStep (env : SensorEnv) (st : SensorManager) :
    ℚ × SensorManager :=
  if st.bmp_initialized then
    (env.bmpPressure / 100, st)
  else
    if 5000 < usub32 env.now st.last_bmp_reconnect_attempt then
      if env.bmpBeginOk then
        ((-1 : ℚ),
          { st with
            last_bmp_reconnect_attempt := env.now
            bmp_initialized := true
            bmp_sampling_configured := true })
      else ((-1 : ℚ), { st with last_bmp_reconnect_attempt := env.now })
    else ((-1 : ℚ), st)

/-- SensorManager::readAllSensors(): DHT reading, BMP reading with the
reconnect policy, then the CO2 exchange. -/
def SensorManager.readAllSensors (env : SensorEnv) (st : SensorManager) :
    SensorData × SensorManager :=
  let ht := SensorManager.dhtStep env
  let ps := SensorManager.bmpStep env st
  let cs := SensorManager.readCO2 env ps.2
  ({ temperature := ht.2, humidity := ht.1, pressure := ps.1, co2 := cs.1 },
    cs.2)

/-- The calibration phases of CalibrationManager.cpp (IDLE, STABILIZING,
PULSING; the .cpp is authoritative — the header shipped with the sources
is an older revision that lacks STABILIZING). -/
inductive CalibrationState
  | IDLE
  | STABILIZING
  | PULSING
  deriving DecidableEq, Repr

/-- Pulse duration, from CalibrationManager.h: PULSE_TIME_MS = 7000UL. -/
def PULSE_TIME_MS : Nat := 7000

/-- Modelled from the spec: STABILIZATION_TIME_MS is used by
CalibrationManager.cpp but its declaration is not among the sources (the
header shipped is an older revision). The .cpp log messages and the spec
both give the stabilization phase 20 minutes. -/
def STABILIZATION_TIME_MS : Nat := 1200000

/-- The state variables of class CalibrationManager
(CalibrationManager.cpp). -/
structure CalibrationManager where
  currentState : CalibrationState
  stateStartTime : Nat
  lastLogTime : Nat
  deriving DecidableEq, Repr

/-- The member initializations performed by the constructor
CalibrationManager::CalibrationManager(). -/
def CalibrationManager.ctorState : CalibrationManager where
  currentState := CalibrationState.IDLE
  stateStartTime := 0
  lastLogTime := 0

/-- CalibrationManager::startCalibration() at time `now`: only from IDLE,
move to STABILIZING and record the start (and log) time. -/
def CalibrationManager.startCalibration (m : CalibrationManager) (now : Nat) :
    CalibrationManager :=
  if m.currentState = CalibrationState.IDLE then
    { currentState := CalibrationState.STABILIZING
      stateStartTime := now
      lastLogTime := now }
  else m

/-- CalibrationManager::isCalibrating(). -/
def CalibrationManager.isCalibrating (m : CalibrationManager) : Bool :=
  m.currentState != CalibrationState.IDLE

/-- CalibrationManager::run() at time `now`; `hdPin` is the current level
of the HD pin (`true` = HIGH = inactive, `false` = LOW = asserting). The
result is the new manager state and the new pin level. -/
def CalibrationManager.run (m : CalibrationManager) (now : Nat)
    (hdPin : Bool) : CalibrationManager × Bool :=
  match m.currentState with
  | CalibrationState.IDLE => (m, hdPin)
  | CalibrationState.STABILIZING =>
    let elapsed := usub32 now m.stateStartTime
    let m1 :=
      if 10000 ≤ usub32 now m.lastLogTime then { m with lastLogTime := now }
      else m
    if STABILIZATION_TIME_MS ≤ elapsed then
      ({ m1 with
          currentState := CalibrationState.PULSING
          stateStartTime := now },
        false)
    else (m1, hdPin)
  | CalibrationState.PULSING =>
    if PULSE_TIME_MS ≤ usub32 now m.stateStartTime then
      ({ m with currentState := CalibrationState.IDLE }, true)
    else (m, hdPin)

/-- A sequence of CalibrationManager::run() calls at the given times,
threading the manager state and the HD pin level. -/
def CalibrationManager.runSeq (times : List Nat)
    (s : CalibrationManager × Bool) : CalibrationManager × Bool :=
  times.foldl (fun acc t => CalibrationManager.run acc.1 t acc.2) s

/-- The six telemetry characteristic values of the BLE service
(BLEManager.cpp), as strings. -/
structure BLECharacteristics where
  temp : String
  pres : String
  hum : String
  co2 : String
  systemState : String
  coolerState : String
  deriving DecidableEq, Repr

/-- Modelled from the spec: the Arduino conversion `String(x, 2)` used by
BLEManager::updateSensorValues is library code not among the sources; per
the spec the float values are rendered as decimal strings with exactly 2
fraction digits (the value rounded to the nearest hundredth, with a leading
minus sign when negative). -/
def formatDecimal2 (q : ℚ) : String :=
  let scaled : Int := round (q * 100)
  let a := scaled.natAbs
  ((if scaled < 0 then "-" else "") ++ Nat.repr (a / 100)) ++ "." ++
    String.mk [Nat.digitChar (a % 100 / 10), Nat.digitChar (a % 10)]

/-- BLEManager::updateSensorValues(temp, hum, pres, co2, systemStatus,
coolerStatus): when a peer is connected, write all six characteristic
values; otherwise leave them untouched. -/
def BLEManager.updateSensorValues (deviceConnected : Bool)
    (temp hum pres : ℚ) (co2 : Int) (systemStatus coolerStatus : String)
    (chars : BLECharacteristics) : BLECharacteristics :=
  if deviceConnected then
    { temp := formatDecimal2 temp
      pres := formatDecimal2 pres
      hum := formatDecimal2 hum
      co2 := Int.repr co2
      systemState := systemStatus
      coolerState := coolerStatus }
  else chars

/-- MyCharacteristicCallbacks::onWrite in BLEManager.cpp: a nonempty
written value replaces the stored calibration command (the character loop
rebuilds exactly the written string); an empty write leaves it unchanged. -/
def MyCharacteristicCallbacks.onWrite (value : String)
    (calibrationCommand : String) : String :=
  if 0 < value.length then value else calibrationCommand

/-- BLEManager::getCalibrationCommand(): returns the stored command and
clears it; the result is (returned value, new stored command). -/
def BLEManager.getCalibrationCommand (calibrationCommand : String) :
    String × String :=
  if calibrationCommand ≠ "" then (calibrationCommand, "")
  else ("", calibrationCommand)

/-! Helper lemmas. -/

/-- For monotone times whose difference has not overflowed 32 bits, the
wraparound subtraction agrees with truncated subtraction. -/
theorem usub32_eq_sub {a b : Nat} (h1 : b ≤ a) (h2 : a - b < 4294967296) :
    usub32 a b = a - b := by
  unfold usub32
  omega

/-- If fewer than 9 bytes are ever available during the poll window, the
poll loop times out. -/
theorem pollGo_none_of_no_data (avail : Nat → Nat) (s : Nat)
    (hav : ∀ u, s ≤ u → u ≤ s + 151 → avail u < 9) :
    ∀ k t, s ≤ t → t + k = s + 152 → pollGo avail s t k = none := by
  intro k
  induction k with
  | zero => intro t _ _; rfl
  | succ k ih =>
    intro t hst hsum
    have hlt : avail t < 9 := hav t hst (by omega)
    have hu : usub32 t s = t - s := usub32_eq_sub hst (by omega)
    by_cases hto : 150 < t - s
    · simp [pollGo, Nat.not_le.mpr hlt, hu, hto]
    · have hrec := ih (t + 1) (by omega) (by omega)
      simp [pollGo, Nat.not_le.mpr hlt, hu, hto, hrec]

/-- A successful poll happens within the fuel window. -/
theorem pollGo_some_le (avail : Nat → Nat) (s : Nat) :
    ∀ k t u, pollGo avail s t k = some u → t ≤ u ∧ u < t + k := by
  intro k
  induction k with
  | zero => intro t u h; simp [pollGo] at h
  | succ k ih =>
    intro t u h
    by_cases h9 : 9 ≤ avail t
    · simp [pollGo, h9] at h
      omega
    · by_cases hto : 150 < usub32 t s
      · simp [pollGo, h9, hto] at h
      · simp [pollGo, h9, hto] at h
        have := ih (t + 1) u h
        omega

/-- The state component returned by readCO2 is the preheat-completion
update of the input state, whatever the UART produced. -/
theorem readCO2_snd (env : SensorEnv) (st : SensorManager) :
    (SensorManager.readCO2 env st).2 =
      if st.state = SensorState.PREHEATING ∧
          60000 < usub32 env.now st.preheat_start_time then
        { st with fan_state := true, state := SensorState.READY }
      else st := by
  unfold SensorManager.readCO2
  rcases hp : pollSerial env.avail env.now with _ | u <;> simp [hp]
  split <;> rfl

/-- readCO2 never touches the BMP-related fields. -/
theorem readCO2_preserves_bmp (env : SensorEnv) (st : SensorManager) :
    (SensorManager.readCO2 env st).2.bmp_initialized = st.bmp_initialized ∧
    (SensorManager.readCO2 env st).2.last_bmp_reconnect_attempt =
      st.last_bmp_reconnect_attempt ∧
    (SensorManager.readCO2 env st).2.bmp_sampling_configured =
      st.bmp_sampling_configured := by
  rw [readCO2_snd]
  split <;> simp

/-- bmpStep never touches the readiness, preheat or fan fields. -/
theorem bmpStep_preserves (env : SensorEnv) (st : SensorManager) :
    (SensorManager.bmpStep env st).2.state = st.state ∧
    (SensorManager.bmpStep env st).2.preheat_start_time =
      st.preheat_start_time ∧
    (SensorManager.bmpStep env st).2.fan_state = st.fan_state := by
  unfold SensorManager.bmpStep
  split
  · simp
  · split
    · split <;> simp
    · simp

/-- The state returned by readAllSensors is the one readCO2 produced from
the bmpStep state. -/
theorem readAllSensors_snd (env : SensorEnv) (st : SensorManager) :
    (SensorManager.readAllSensors env st).2 =
      (SensorManager.readCO2 env (SensorManager.bmpStep env st).2).2 := rfl

/-- The humidity and temperature fields come from the DHT branch. -/
theorem readAllSensors_dht (env : SensorEnv) (st : SensorManager) :
    (SensorManager.readAllSensors env st).1.humidity =
      (SensorManager.dhtStep env).1 ∧
    (SensorManager.readAllSensors env st).1.temperature =
      (SensorManager.dhtStep env).2 := ⟨rfl, rfl⟩

/-- The pressure field comes from the BMP branch. -/
theorem readAllSensors_pressure (env : SensorEnv) (st : SensorManager) :
    (SensorManager.readAllSensors env st).1.pressure =
      (SensorManager.bmpStep env st).1 := rfl

/-! Claims. -/

/-- Claim C1: for every 9-byte outbound frame of bytes, the checksum
computed by calculateChecksum equals (0xFF - (sum of the bytes at indices
1..7)) + 1 reduced mod 256 (computed in ℤ), and the round trip holds:
summing the bytes at indices 1..8 of a frame whose index-8 byte was set by
calculateChecksum yields 0 mod 256. -/
theorem c1_checksum_spec (b0 b1 b2 b3 b4 b5 b6 b7 b8 : Nat)
    (h1 : b1 < 256) (h2 : b2 < 256) (h3 : b3 < 256) (h4 : b4 < 256)
    (h5 : b5 < 256) (h6 : b6 < 256) (h7 : b7 < 256) :
    ((calculateChecksum [b0, b1, b2, b3, b4, b5, b6, b7, b8] : Int) =
        (255 - (b1 + b2 + b3 + b4 + b5 + b6 + b7 : Int) + 1) % 256) ∧
    ((([b0, b1, b2, b3, b4, b5, b6, b7,
          calculateChecksum [b0, b1, b2, b3, b4, b5, b6, b7, b8]].drop
            1).take 8).sum % 256 = 0) := by
  simp only [calculateChecksum, List.drop, List.take, List.foldl, List.sum,
    List.foldr]
  constructor
  · push_cast
    omega
  · omega

/-- Claim C1 witness: the disable-autocalibration frame FF 01 79 00 00 00
00 00 gets checksum 0x86, and its completed frame round-trips to 0. -/
theorem c1_checksum_spec_witness :
    ((calculateChecksum [255, 1, 121, 0, 0, 0, 0, 0, 0] : Int) =
        (255 - (1 + 121 + 0 + 0 + 0 + 0 + 0 : Int) + 1) % 256) ∧
    ((([255, 1, 121, 0, 0, 0, 0, 0,
          calculateChecksum [255, 1, 121, 0, 0, 0, 0, 0, 0]].drop 1).take
            8).sum % 256 = 0) :=
  c1_checksum_spec 255 1 121 0 0 0 0 0 0 (by decide) (by decide) (by decide)
    (by decide) (by decide) (by decide) (by decide)

/-- Claim C2: if fewer than 9 response bytes are available at every poll in
the 150 ms timeout window (the checks run at 1 ms granularity through the
final timeout check at elapsed 151 ms), readCO2 returns -1; and the wait is
bounded — a successful poll always completes within that window, so the
call never blocks indefinitely. -/
theorem c2_readCO2_timeout (env : SensorEnv) (st : SensorManager) :
    ((∀ u, env.now ≤ u → u ≤ env.now + 151 → env.avail u < 9) →
        (SensorManager.readCO2 env st).1 = -1) ∧
    (∀ u, pollSerial env.avail env.now = some u →
        env.now ≤ u ∧ u ≤ env.now + 151) := by
  constructor
  · intro hav
    have hnone : pollSerial env.avail env.now = none :=
      pollGo_none_of_no_data env.avail env.now hav 152 env.now le_rfl rfl
    simp only [SensorManager.readCO2, hnone]
  · intro u hu
    have := pollGo_some_le env.avail env.now 152 env.now u hu
    omega

/-- Concrete input for the C2 witness: a byte stream that never yields any
byte. -/
def envC2 : SensorEnv where
  now := 1000
  avail := fun _ => 0
  response := fun _ => 0
  dhtHumidity := some 50
  dhtTemperature := some 20
  bmpPressure := 100000
  bmpBeginOk := false

/-- Claim C2 witness: with zero bytes ever available, readCO2 returns
-1. -/
theorem c2_readCO2_timeout_witness :
    (SensorManager.readCO2 envC2 SensorManager.ctorState).1 = -1 :=
  (c2_readCO2_timeout envC2 SensorManager.ctorState).1
    (by intro u h1 h2; show (0 : Nat) < 9; decide)

/-- Claim C3: startCalibration is a no-op while the phase is STABILIZING or
PULSING (the whole state, in particular the phase and the recorded start
time, is unchanged), and from IDLE it moves to STABILIZING recording the
call time as the fresh start (and log) timestamp. -/
theorem c3_startCalibration (m : CalibrationManager) (now : Nat) :
    ((m.currentState = CalibrationState.STABILIZING ∨
        m.currentState = CalibrationState.PULSING) →
      CalibrationManager.startCalibration m now = m) ∧
    (m.currentState = CalibrationState.IDLE →
      CalibrationManager.startCalibration m now =
        { currentState := CalibrationState.STABILIZING
          stateStartTime := now
          lastLogTime := now }) := by
  constructor
  · intro h
    rcases h with h | h <;>
      simp [CalibrationManager.startCalibration, h]
  · intro h
    simp [CalibrationManager.startCalibration, h]

/-- Claim C3 witness: from IDLE at time 42, the phase becomes STABILIZING
with start time 42. -/
theorem c3_startCalibration_witness :
    CalibrationManager.startCalibration
        { currentState := CalibrationState.IDLE
          stateStartTime := 5
          lastLogTime := 5 } 42 =
      { currentState := CalibrationState.STABILIZING
        stateStartTime := 42
        lastLogTime := 42 } :=
  (c3_startCalibration
      { currentState := CalibrationState.IDLE
        stateStartTime := 5
        lastLogTime := 5 } 42).2 rfl

/-- Claim C4: with the STABILIZING phase entered at t0, run() one
millisecond before t0 + STABILIZATION_TIME_MS leaves the phase STABILIZING
with the start time unchanged, while run() at exactly
t0 + STABILIZATION_TIME_MS moves the phase to PULSING, records the call
time as the new start time, and drives the HD pin to its asserting level
(LOW, i.e. false). -/
theorem c4_stabilizing_boundary (m : CalibrationManager) (pin : Bool)
    (t0 : Nat) (hs : m.currentState = CalibrationState.STABILIZING)
    (ht : m.stateStartTime = t0) :
    ((CalibrationManager.run m (t0 + STABILIZATION_TIME_MS - 1)
          pin).1.currentState = CalibrationState.STABILIZING ∧
      (CalibrationManager.run m (t0 + STABILIZATION_TIME_MS - 1)
          pin).1.stateStartTime = t0) ∧
    ((CalibrationManager.run m (t0 + STABILIZATION_TIME_MS)
          pin).1.currentState = CalibrationState.PULSING ∧
      (CalibrationManager.run m (t0 + STABILIZATION_TIME_MS)
          pin).1.stateStartTime = t0 + STABILIZATION_TIME_MS ∧
      (CalibrationManager.run m (t0 + STABILIZATION_TIME_MS) pin).2 =
        false) := by
  have hstab : STABILIZATION_TIME_MS = 1200000 := rfl
  have e1 : usub32 (t0 + STABILIZATION_TIME_MS - 1) t0 =
      STABILIZATION_TIME_MS - 1 := by
    have h := usub32_eq_sub
      (show t0 ≤ t0 + STABILIZATION_TIME_MS - 1 by omega)
      (show t0 + STABILIZATION_TIME_MS - 1 - t0 < 4294967296 by omega)
    omega
  have e2 : usub32 (t0 + STABILIZATION_TIME_MS) t0 =
      STABILIZATION_TIME_MS := by
    have h := usub32_eq_sub
      (show t0 ≤ t0 + STABILIZATION_TIME_MS by omega)
      (show t0 + STABILIZATION_TIME_MS - t0 < 4294967296 by omega)
    omega
  have cneg : ¬ STABILIZATION_TIME_MS ≤ STABILIZATION_TIME_MS - 1 := by
    omega
  refine ⟨⟨?_, ?_⟩, ?_, ?_, ?_⟩
  · simp only [CalibrationManager.run, hs, ht, e1]
    rw [if_neg cneg]
    split <;> simp [hs]
  · simp only [CalibrationManager.run, hs, ht, e1]
    rw [if_neg cneg]
    split <;> simp [ht]
  · simp only [CalibrationManager.run, hs, ht, e2]
    rw [if_pos le_rfl]
  · simp only [CalibrationManager.run, hs, ht, e2]
    rw [if_pos le_rfl]
  · simp only [CalibrationManager.run, hs, ht, e2]
    rw [if_pos le_rfl]

/-- Claim C4 witness: concrete manager in STABILIZING entered at t0 = 100,
run at the two boundary instants. -/
theorem c4_stabilizing_boundary_witness :
    ((CalibrationManager.run
          { currentState := CalibrationState.STABILIZING
            stateStartTime := 100
            lastLogTime := 100 } (100 + STABILIZATION_TIME_MS - 1)
          true).1.currentState = CalibrationState.STABILIZING ∧
      (CalibrationManager.run
          { currentState := CalibrationState.STABILIZING
            stateStartTime := 100
            lastLogTime := 100 } (100 + STABILIZATION_TIME_MS - 1)
          true).1.stateStartTime = 100) ∧
    ((CalibrationManager.run
          { currentState := CalibrationState.STABILIZING
            stateStartTime := 100
            lastLogTime := 100 } (100 + STABILIZATION_TIME_MS)
          true).1.currentState = CalibrationState.PULSING ∧
      (CalibrationManager.run
          { currentState := CalibrationState.STABILIZING
            stateStartTime := 100
            lastLogTime := 100 } (100 + STABILIZATION_TIME_MS)
          true).1.stateStartTime = 100 + STABILIZATION_TIME_MS ∧
      (CalibrationManager.run
          { currentState := CalibrationState.STABILIZING
            stateStartTime := 100
            lastLogTime := 100 } (100 + STABILIZATION_TIME_MS) true).2 =
        false) :=
  c4_stabilizing_boundary
    { currentState := CalibrationState.STABILIZING
      stateStartTime := 100
      lastLogTime := 100 } true 100 rfl rfl

/-- Claim C5: for any sequence of run() calls at times all earlier than
7000 ms after the PULSING phase was entered at t0, the manager state and
the HD pin are completely unchanged (in particular the phase never leaves
PULSING); and a run() call once 7000 ms or more have elapsed (without
32-bit overflow of the elapsed time) returns the phase to IDLE and drives
the HD pin back to its inactive level (HIGH, i.e. true). -/
theorem c5_pulse_floor (m : CalibrationManager) (pin : Bool) (t0 : Nat)
    (times : List Nat) (now : Nat)
    (hp : m.currentState = CalibrationState.PULSING)
    (ht : m.stateStartTime = t0)
    (htimes : ∀ t ∈ times, t0 ≤ t ∧ t < t0 + 7000)
    (hn1 : t0 ≤ now) (hn2 : 7000 ≤ now - t0) (hn3 : now - t0 < 4294967296) :
    CalibrationManager.runSeq times (m, pin) = (m, pin) ∧
    CalibrationManager.run m now pin =
      ({ m with currentState := CalibrationState.IDLE }, true) := by
  have hstep : ∀ t, t0 ≤ t → t < t0 + 7000 →
      CalibrationManager.run m t pin = (m, pin) := by
    intro t h1 h2
    have e : usub32 t t0 = t - t0 := usub32_eq_sub h1 (by omega)
    have hlt : ¬ PULSE_TIME_MS ≤ usub32 t t0 := by
      rw [e]; simp only [PULSE_TIME_MS]; omega
    simp [CalibrationManager.run, hp, ht, hlt]
  constructor
  · clear hn1 hn2 hn3
    induction times with
    | nil => rfl
    | cons t ts ih =>
      have h := htimes t (List.mem_cons_self t ts)
      have hrun := hstep t h.1 h.2
      calc CalibrationManager.runSeq (t :: ts) (m, pin) =
            CalibrationManager.runSeq ts (CalibrationManager.run m t pin) := by
              simp [CalibrationManager.runSeq, List.foldl]
        _ = CalibrationManager.runSeq ts (m, pin) := by rw [hrun]
        _ = (m, pin) := ih (fun u hu => htimes u (List.mem_cons_of_mem t hu))
  · have e : usub32 now t0 = now - t0 := usub32_eq_sub hn1 hn3
    have hge : PULSE_TIME_MS ≤ usub32 now t0 := by
      rw [e]; simp only [PULSE_TIME_MS]; omega
    simp [CalibrationManager.run, hp, ht, hge]

/-- Claim C5 witness: PULSING entered at t0 = 10; run calls at 10, 3000 and
7009 keep everything unchanged, and a run call at 7010 (elapsed 7000)
completes the pulse. -/
theorem c5_pulse_floor_witness :
    CalibrationManager.runSeq [10, 3000, 7009]
        ({ currentState := CalibrationState.PULSING
           stateStartTime := 10
           lastLogTime := 0 }, false) =
      ({ currentState := CalibrationState.PULSING
         stateStartTime := 10
         lastLogTime := 0 }, false) ∧
    CalibrationManager.run
        { currentState := CalibrationState.PULSING
          stateStartTime := 10
          lastLogTime := 0 } 7010 false =
      ({ currentState := CalibrationState.IDLE
         stateStartTime := 10
         lastLogTime := 0 }, true) :=
  c5_pulse_floor
    { currentState := CalibrationState.PULSING
      stateStartTime := 10
      lastLogTime := 0 } false 10 [10, 3000, 7009] 7010 rfl rfl
    (by decide) (by decide) (by decide) (by decide)

/-- Concrete input for the C6 counterexample: exactly 60000 ms of elapsed
preheat time, with a UART that answers immediately. -/
def envC6 : SensorEnv where
  now := 60000
  avail := fun _ => 9
  response := fun _ => 0
  dhtHumidity := some 50
  dhtTemperature := some 20
  bmpPressure := 0
  bmpBeginOk := false

/-- Claim C6 counterexample: a sensing cycle at exactly 60000 ms of elapsed
preheat time (the claim's "at least 60000 ms") leaves the readiness state
PREHEATING and the fan off, because the code requires the elapsed time to
strictly exceed 60000 ms. -/
theorem c6_counterexample :
    envC6.now - SensorManager.ctorState.preheat_start_time = 60000 ∧
    SensorManager.ctorState.state = SensorState.PREHEATING ∧
    (SensorManager.readAllSensors envC6 SensorManager.ctorState).2.state =
      SensorState.PREHEATING ∧
    (SensorManager.readAllSensors envC6
        SensorManager.ctorState).2.fan_state = false := by
  decide

/-- Claim C6 (amended): the readiness state starts as PREHEATING (set by
the constructor and untouched by init), and once strictly more than
60000 ms have elapsed since the preheat timer was started (without 32-bit
overflow), with the state still PREHEATING (no calibration command having
intervened), a readAllSensors cycle transitions the state to READY and
sets the fan state to true. -/
theorem c6_preheat_ready (env : SensorEnv) (st : SensorManager)
    (hstate : st.state = SensorState.PREHEATING)
    (helapsed : 60000 < env.now - st.preheat_start_time)
    (hwrap : env.now - st.preheat_start_time < 4294967296) :
    SensorManager.ctorState.state = SensorState.PREHEATING ∧
    (SensorManager.init SensorManager.ctorState env.now
        env.bmpBeginOk).state = SensorState.PREHEATING ∧
    (SensorManager.readAllSensors env st).2.state = SensorState.READY ∧
    (SensorManager.readAllSensors env st).2.fan_state = true := by
  have hle : st.preheat_start_time ≤ env.now := by omega
  have hps := bmpStep_preserves env st
  have e : usub32 env.now (SensorManager.bmpStep env st).2.preheat_start_time
      = env.now - st.preheat_start_time := by
    rw [hps.2.1]
    exact usub32_eq_sub hle hwrap
  have hcond : (SensorManager.bmpStep env st).2.state =
      SensorState.PREHEATING ∧
      60000 < usub32 env.now
        (SensorManager.bmpStep env st).2.preheat_start_time := by
    rw [hps.1, e]
    exact ⟨hstate, helapsed⟩
  refine ⟨rfl, rfl, ?_, ?_⟩ <;>
    rw [readAllSensors_snd, readCO2_snd, if_pos hcond]

/-- Concrete input for the C6 witness: 60001 ms of elapsed preheat time. -/
def envC6w : SensorEnv where
  now := 60001
  avail := fun _ => 9
  response := fun _ => 0
  dhtHumidity := some 50
  dhtTemperature := some 20
  bmpPressure := 0
  bmpBeginOk := false

/-- Claim C6 witness: at 60001 ms of elapsed preheat time the cycle moves
the readiness state to READY and turns the fan on. -/
theorem c6_preheat_ready_witness :
    SensorManager.ctorState.state = SensorState.PREHEATING ∧
    (SensorManager.init SensorManager.ctorState envC6w.now
        envC6w.bmpBeginOk).state = SensorState.PREHEATING ∧
    (SensorManager.readAllSensors envC6w
        SensorManager.ctorState).2.state = SensorState.READY ∧
    (SensorManager.readAllSensors envC6w
        SensorManager.ctorState).2.fan_state = true :=
  c6_preheat_ready envC6w SensorManager.ctorState rfl (by decide)
    (by decide)

/-- Claim C7: in every readAllSensors cycle, if either DHT reading is NaN
then both the humidity and the temperature field of the returned
SensorData carry the -1.0 sentinel, and if neither is NaN both fields
carry the values read. -/
theorem c7_dht_coupling (env : SensorEnv) (st : SensorManager) :
    ((env.dhtHumidity = none ∨ env.dhtTemperature = none) →
      (SensorManager.readAllSensors env st).1.humidity = -1 ∧
      (SensorManager.readAllSensors env st).1.temperature = -1) ∧
    (∀ h t, env.dhtHumidity = some h → env.dhtTemperature = some t →
      (SensorManager.readAllSensors env st).1.humidity = h ∧
      (SensorManager.readAllSensors env st).1.temperature = t) := by
  have hd := readAllSensors_dht env st
  constructor
  · intro hnan
    rw [hd.1, hd.2]
    unfold SensorManager.dhtStep
    rcases hnan with h | h <;> rw [h]
    · simp
    · rcases henv : env.dhtHumidity with _ | v <;> simp
  · intro h t hh htt
    rw [hd.1, hd.2]
    unfold SensorManager.dhtStep
    rw [hh, htt]
    exact ⟨rfl, rfl⟩

/-- Concrete input for the C7 witness: a NaN humidity reading. -/
def envC7 : SensorEnv where
  now := 0
  avail := fun _ => 0
  response := fun _ => 0
  dhtHumidity := none
  dhtTemperature := some 21
  bmpPressure := 0
  bmpBeginOk := false

/-- Claim C7 witness: a NaN humidity reading forces both fields to -1 even
though the temperature read succeeded. -/
theorem c7_dht_coupling_witness :
    (SensorManager.readAllSensors envC7
        SensorManager.ctorState).1.humidity = -1 ∧
    (SensorManager.readAllSensors envC7
        SensorManager.ctorState).1.temperature = -1 :=
  (c7_dht_coupling envC7 SensorManager.ctorState).1 (Or.inl rfl)

/-- Concrete input for the C8 counterexample: exactly 5000 ms since the
last reconnect attempt, with a BMP280 that would answer a begin(). -/
def envC8 : SensorEnv where
  now := 5000
  avail := fun _ => 9
  response := fun _ => 0
  dhtHumidity := some 50
  dhtTemperature := some 20
  bmpPressure := 0
  bmpBeginOk := true

/-- Claim C8 counterexample: with the pressure sensor absent and exactly
5000 ms elapsed since the last reconnect attempt (the claim's "at least
5000 ms"), no reconnect attempt is made — the attempt timestamp is not
refreshed and the sensor stays unmarked — because the code requires the
elapsed time to strictly exceed 5000 ms. -/
theorem c8_counterexample :
    envC8.now -
        SensorManager.ctorState.last_bmp_reconnect_attempt = 5000 ∧
    envC8.bmpBeginOk = true ∧
    (SensorManager.readAllSensors envC8
        SensorManager.ctorState).2.last_bmp_reconnect_attempt = 0 ∧
    (SensorManager.readAllSensors envC8
        SensorManager.ctorState).2.bmp_initialized = false := by
  decide

/-- Claim C8 (amended): while the pressure sensor is not marked
initialized, every readAllSensors call returns the -1 pressure sentinel;
a reconnect is attempted only when strictly more than 5000 ms have elapsed
since the last attempt (without 32-bit overflow), in which case the single
attempt of that call refreshes the attempt timestamp, and on success the
sampling configuration is re-applied and the sensor is marked
initialized; at 5000 ms or less of elapsed time nothing is attempted. -/
theorem c8_bmp_retry (env : SensorEnv) (st : SensorManager)
    (hni : st.bmp_initialized = false) :
    (SensorManager.readAllSensors env st).1.pressure = -1 ∧
    (5000 < env.now - st.last_bmp_reconnect_attempt →
      env.now - st.last_bmp_reconnect_attempt < 4294967296 →
      (SensorManager.readAllSensors
          env st).2.last_bmp_reconnect_attempt = env.now ∧
      (env.bmpBeginOk = true →
        (SensorManager.readAllSensors env st).2.bmp_initialized = true ∧
        (SensorManager.readAllSensors
            env st).2.bmp_sampling_configured = true) ∧
      (env.bmpBeginOk = false →
        (SensorManager.readAllSensors env st).2.bmp_initialized =
          false)) ∧
    (st.last_bmp_reconnect_attempt ≤ env.now →
      env.now - st.last_bmp_reconnect_attempt ≤ 5000 →
      (SensorManager.readAllSensors
          env st).2.last_bmp_reconnect_attempt =
        st.last_bmp_reconnect_attempt ∧
      (SensorManager.readAllSensors env st).2.bmp_initialized = false) := by
  have hb := readCO2_preserves_bmp env (SensorManager.bmpStep env st).2
  refine ⟨?_, ?_, ?_⟩
  · rw [readAllSensors_pressure]
    unfold SensorManager.bmpStep
    rw [hni]
    simp only [Bool.false_eq_true, if_false]
    split
    · split <;> rfl
    · rfl
  · intro h5 hw
    have hle : st.last_bmp_reconnect_attempt ≤ env.now := by omega
    have e : usub32 env.now st.last_bmp_reconnect_attempt =
        env.now - st.last_bmp_reconnect_attempt := usub32_eq_sub hle hw
    have hbs : (SensorManager.bmpStep env st).2 =
        if env.bmpBeginOk then
          { st with
            last_bmp_reconnect_attempt := env.now
            bmp_initialized := true
            bmp_sampling_configured := true }
        else { st with last_bmp_reconnect_attempt := env.now } := by
      unfold SensorManager.bmpStep
      rw [hni]
      simp only [Bool.false_eq_true, if_false]
      rw [if_pos (by rw [e]; exact h5)]
      split <;> rfl
    refine ⟨?_, ?_, ?_⟩
    · rw [readAllSensors_snd, hb.2.1, hbs]
      split <;> rfl
    · intro hok
      constructor
      · rw [readAllSensors_snd, hb.1, hbs, if_pos hok]
      · rw [readAllSensors_snd, hb.2.2, hbs, if_pos hok]
    · intro hnok
      rw [readAllSensors_snd, hb.1, hbs, if_neg (by simp [hnok])]
      exact hni
  · intro hle h5
    have e : usub32 env.now st.last_bmp_reconnect_attempt =
        env.now - st.last_bmp_reconnect_attempt :=
      usub32_eq_sub hle (by omega)
    have hbs : (SensorManager.bmpStep env st).2 = st := by
      unfold SensorManager.bmpStep
      rw [hni]
      simp only [Bool.false_eq_true, if_false]
      rw [if_neg (by rw [e]; omega)]
    constructor
    · rw [readAllSensors_snd, hb.2.1, hbs]
    · rw [readAllSensors_snd, hb.1, hbs, hni]

/-- Concrete input for the C8 witness: 5001 ms since the last reconnect
attempt, with a BMP280 that answers. -/
def envC8w : SensorEnv where
  now := 5001
  avail := fun _ => 9
  response := fun _ => 0
  dhtHumidity := some 50
  dhtTemperature := some 20
  bmpPressure := 0
  bmpBeginOk := true

/-- Claim C8 witness: at 5001 ms of elapsed time the call reports the -1
sentinel, refreshes the attempt timestamp, re-applies the sampling
configuration and marks the sensor initialized. -/
theorem c8_bmp_retry_witness :
    (SensorManager.readAllSensors envC8w
        SensorManager.ctorState).1.pressure = -1 ∧
    (SensorManager.readAllSensors envC8w
        SensorManager.ctorState).2.last_bmp_reconnect_attempt =
      envC8w.now ∧
    (SensorManager.readAllSensors envC8w
        SensorManager.ctorState).2.bmp_initialized = true ∧
    (SensorManager.readAllSensors envC8w
        SensorManager.ctorState).2.bmp_sampling_configured = true :=
  have h := c8_bmp_retry envC8w SensorManager.ctorState rfl
  ⟨h.1, (h.2.1 (by decide) (by decide)).1,
    ((h.2.1 (by decide) (by decide)).2.1 rfl).1,
    ((h.2.1 (by decide) (by decide)).2.1 rfl).2⟩

/-- Claim C9: updateSensorValues leaves all six telemetry characteristic
values unchanged when no peer is connected; when a peer is connected it
writes all six — the three floats through the 2-fraction-digit decimal
rendering, the co2 value as an integer string, and the two status labels
verbatim — and every rendered float indeed ends in a dot followed by
exactly 2 digits. -/
theorem c9_ble_update (connected : Bool) (temp hum pres : ℚ) (co2 : Int)
    (systemStatus coolerStatus : String) (chars : BLECharacteristics) :
    (connected = false →
      BLEManager.updateSensorValues connected temp hum pres co2
        systemStatus coolerStatus chars = chars) ∧
    (connected = true →
      BLEManager.updateSensorValues connected temp hum pres co2
        systemStatus coolerStatus chars =
        { temp := formatDecimal2 temp
          pres := formatDecimal2 pres
          hum := formatDecimal2 hum
          co2 := Int.repr co2
          systemState := systemStatus
          coolerState := coolerStatus }) ∧
    (∀ q : ℚ, ∃ p d : String,
      formatDecimal2 q = p ++ "." ++ d ∧ d.length = 2) := by
  refine ⟨?_, ?_, ?_⟩
  · intro h
    simp [BLEManager.updateSensorValues, h]
  · intro h
    simp [BLEManager.updateSensorValues, h]
  · intro q
    exact ⟨_, _, rfl, rfl⟩

/-- Concrete characteristics for the C9 witness. -/
def charsC9 : BLECharacteristics where
  temp := "t"
  pres := "p"
  hum := "h"
  co2 := "c"
  systemState := "PREHEATING"
  coolerState := "OFF"

/-- Claim C9 witness: with no peer connected, an update call leaves the
characteristics untouched. -/
theorem c9_ble_update_witness :
    BLEManager.updateSensorValues false 21 50 1013 400 "READY" "ON"
      charsC9 = charsC9 :=
  (c9_ble_update false 21 50 1013 400 "READY" "ON" charsC9).1 rfl

/-- Claim C10: getCalibrationCommand is a consuming read — if a call
returns a non-empty command, an immediately following call on the
resulting stored state (no intervening write) returns the empty string,
so every received command is delivered at most once. -/
theorem c10_consuming_read (s : String) :
    (BLEManager.getCalibrationCommand s).1 ≠ "" →
    (BLEManager.getCalibrationCommand
        (BLEManager.getCalibrationCommand s).2).1 = "" := by
  intro h
  by_cases hs : s = "" <;>
    simp [BLEManager.getCalibrationCommand, hs] at h ⊢

/-- Claim C10 witness: reading the command START_CAL consumes it. -/
theorem c10_consuming_read_witness :
    (BLEManager.getCalibrationCommand
        (BLEManager.getCalibrationCommand "START_CAL").2).1 = "" :=
  c10_consuming_read "START_CAL" (by decide)
